import Mathlib

/-!
Verification development for the ci-monitor repository (src/ci_monitor.py).

The Python source is shallowly embedded below.  State that the program keeps
in files and in its SQLite database is made explicit:

* the notified-runs table of state.db becomes a list of LedgerRow values;
* the repos.txt watch-list file becomes a list of text lines;
* the JSON config becomes a Config structure (defaults already merged, as
  load_config does);
* the run returned by the gh CLI becomes a RunRecord whose fields are
  optional, mirroring run.get with its defaults;
* the observable side effects of one poll cycle (history-log appends, speak
  invocations, ledger writes, console lines) become an explicit Event trace;
* the daemon pid file becomes an optional string of its contents, and
  process liveness an explicit predicate standing for os.kill(pid, 0).

Timestamps are modelled by the PyDateTime structure together with the two
textual renderings that the source actually compares: the Python
datetime.isoformat form that mark_notified stores, and the SQLite
datetime form that the purge in init_db compares against.  Both renderings
are ASCII, so the SQLite BINARY text comparison coincides with the
lexicographic order on Lean strings.  A single clock is used for both
renderings (the local versus UTC distinction of datetime.now versus
SQLite datetime is not modelled; every statement below already holds, or
already fails, when the local zone is UTC).
-/

namespace CiMonitor

/-- The whitespace class of the Python str.strip method, restricted to the
ASCII range that these files contain. -/
def isPySpace (c : Char) : Bool :=
  c == ' ' || c == '\t' || c == '\n' || c == '\r' || c == '\x0b' || c == '\x0c'

/-- str.strip on the character list. -/
def trimChars (l : List Char) : List Char :=
  ((l.dropWhile isPySpace).reverse.dropWhile isPySpace).reverse

/-- str.strip. -/
def pyStrip (s : String) : String := String.mk (trimChars s.data)

/-- str.startswith for a single-character head. -/
def startsWithChar (s : String) (c : Char) : Bool :=
  s.data.head? == some c

/-- str.split on a single-character separator: Python yields the pieces
between occurrences, keeping empty pieces, and yields one piece for a
string with no occurrence. -/
def splitOnChar (sep : Char) : List Char → List (List Char)
  | [] => [[]]
  | c :: cs =>
    let r := splitOnChar sep cs
    if c == sep then [] :: r
    else
      match r with
      | [] => [[c]]
      | h :: t => (c :: h) :: t

/-- str.lower on the ASCII letters these values contain. -/
def pyLower (s : String) : String :=
  String.mk (s.data.map fun c => if 'A' ≤ c && c ≤ 'Z' then Char.ofNat (c.toNat + 32) else c)

/-- One row of the notified_runs table of state.db. -/
structure LedgerRow where
  run_id : String
  repo : String
  workflow : String
  conclusion : String
  notified_at : String
deriving DecidableEq

/-- was_notified: SELECT 1 FROM notified_runs WHERE run_id = ? finds a row. -/
def was_notified (L : List LedgerRow) (id : String) : Bool :=
  L.any (fun e => e.run_id == id)

/-- mark_notified: INSERT OR REPLACE keyed on run_id.  SQLite REPLACE first
deletes every row that collides on the primary key, then inserts the new
row, so the model removes rows with the given run_id and appends one. -/
def mark_notified (L : List LedgerRow) (id repo workflow conclusion ts : String) :
    List LedgerRow :=
  L.filter (fun e => !(e.run_id == id)) ++ [⟨id, repo, workflow, conclusion, ts⟩]

/-- Number of ledger rows carrying a given run_id. -/
def countId (L : List LedgerRow) (id : String) : Nat :=
  (L.filter (fun e => e.run_id == id)).length

/-- The arguments of one mark_notified call. -/
structure RecordCall where
  run_id : String
  repo : String
  workflow : String
  conclusion : String
  notified_at : String
deriving DecidableEq

/-- Replay a sequence of mark_notified calls on a ledger. -/
def applyRecords (L : List LedgerRow) (cs : List RecordCall) : List LedgerRow :=
  cs.foldl
    (fun acc c => mark_notified acc c.run_id c.repo c.workflow c.conclusion c.notified_at) L

/-- The configuration after load_config has merged defaults under the user
file: all five recognized keys are present. -/
structure Config where
  check_interval : Int
  speech_enabled : Bool
  speech_command : Option String
  notify_success : Bool
  notify_failure : Bool
deriving DecidableEq

/-- DEFAULT_CONFIG of the source. -/
def DEFAULT_CONFIG : Config := ⟨60, true, none, true, true⟩

/-- get_check_interval: the interval the daemon loop sleeps on between
poll cycles (run_daemon_loop reads it once and passes it to time.sleep). -/
def get_check_interval (cfg : Config) : Int :=
  cfg.check_interval

/-- The latest-run record parsed from the gh CLI JSON output.  Each field is
optional because check_repos reads it with run.get and a default; the
databaseId is kept in its stringified form str(run.get("databaseId", "")),
with none standing for an absent field (which stringifies to ""). -/
structure RunRecord where
  databaseId : Option String
  status : Option String
  conclusion : Option String
  name : Option String
deriving DecidableEq

/-- run_id = str(run.get("databaseId", "")). -/
def RunRecord.run_id (r : RunRecord) : String := r.databaseId.getD ""

/-- status = run.get("status", ""). -/
def RunRecord.statusOf (r : RunRecord) : String := r.status.getD ""

/-- conclusion = run.get("conclusion", ""). -/
def RunRecord.conclusionOf (r : RunRecord) : String := r.conclusion.getD ""

/-- workflow = run.get("name", "Workflow"). -/
def RunRecord.workflowOf (r : RunRecord) : String := r.name.getD "Workflow"

/-- One observable side effect of a poll cycle, in program order:
a history-log append by log_event, an invocation of speak, the ledger
write of mark_notified, or the console print at the end of the branch. -/
inductive Event where
  | logAppend (repo workflow conclusion : String)
  | speakCall (message : String)
  | markWrite (run_id repo workflow conclusion : String)
  | consoleLine (repo workflow conclusion : String)
deriving DecidableEq

def isLog : Event → Bool
  | .logAppend _ _ _ => true
  | _ => false

def isSpeak : Event → Bool
  | .speakCall _ => true
  | _ => false

def isMark : Event → Bool
  | .markWrite _ _ _ _ => true
  | _ => false

def countLog (evs : List Event) : Nat := (evs.filter isLog).length

def countSpeak (evs : List Event) : Nat := (evs.filter isSpeak).length

def countMark (evs : List Event) : Nat := (evs.filter isMark).length

/-- Replaying a trace on the ledger: only markWrite events touch it.
Used to express what an interruption after a strict trace prefix leaves
behind. -/
def applyMarks (L : List LedgerRow) (evs : List Event) (ts : String) : List LedgerRow :=
  evs.foldl
    (fun acc e =>
      match e with
      | .markWrite id repo wf c => mark_notified acc id repo wf c ts
      | _ => acc) L

/-- repo.split("/")[-1]. -/
def lastComponent (s : String) : String :=
  String.mk ((splitOnChar '/' s.data).getLastD s.data)

/-- The should_speak condition of check_repos. -/
def shouldSpeak (cfg : Config) (conclusion : String) : Bool :=
  ((conclusion == "success") && cfg.notify_success) ||
  ((conclusion == "failure") && cfg.notify_failure) ||
  (!((conclusion == "success") || (conclusion == "failure")))

/-- The message passed to speak, per conclusion. -/
def speakMessage (repoName workflow conclusion : String) : String :=
  if conclusion == "success" then repoName ++ ": " ++ workflow ++ " passed"
  else if conclusion == "failure" then "Attention! " ++ repoName ++ ": " ++ workflow ++ " failed"
  else repoName ++ ": " ++ workflow ++ " completed with " ++ conclusion

/-- The body of the per-repository loop of check_repos: given the config,
the current ledger, the watched repository, the run the Run Source returned
for it (none when gh failed, timed out or listed no runs), and the
timestamp mark_notified would store, produce the trace of side effects and
the resulting ledger. -/
def checkRepo (cfg : Config) (ledger : List LedgerRow) (repo : String)
    (run : Option RunRecord) (ts : String) : List Event × List LedgerRow :=
  match run with
  | none => ([], ledger)
  | some r =>
    if (r.statusOf == "completed") && (!(r.run_id == "")) &&
        (!(was_notified ledger r.run_id)) then
      let repoName := lastComponent repo
      let evs :=
        Event.logAppend repo r.workflowOf r.conclusionOf ::
        (if shouldSpeak cfg r.conclusionOf then
            [Event.speakCall (speakMessage repoName r.workflowOf r.conclusionOf)]
          else []) ++
        [Event.markWrite r.run_id repo r.workflowOf r.conclusionOf,
         Event.consoleLine repo r.workflowOf r.conclusionOf]
      (evs, mark_notified ledger r.run_id repo r.workflowOf r.conclusionOf ts)
    else ([], ledger)

/-- check_repos: one poll cycle over the whole watch list, threading the
ledger through the per-repository bodies and concatenating their traces. -/
def check_repos (cfg : Config) (repos : List String) (src : String → Option RunRecord)
    (ledger : List LedgerRow) (ts : String) : List Event × List LedgerRow :=
  repos.foldl
    (fun acc repo =>
      let out := checkRepo cfg acc.2 repo (src repo) ts
      (acc.1 ++ out.1, out.2)) ([], ledger)

/-- get_repos: the lines of repos.txt that are nonempty after stripping and
whose raw text does not start with the comment character, each stripped.
The file is modelled as its list of lines. -/
def get_repos (file : List String) : List String :=
  (file.filter (fun l => !(pyStrip l == "") && !(startsWithChar l '#'))).map pyStrip

/-- add_repo: reject unless the identifier contains the separator exactly
once, reject a duplicate, otherwise append one line to repos.txt. -/
def add_repo (file : List String) (repo : String) : Bool × List String :=
  if (!(repo.data.contains '/')) || (repo.data.count '/' != 1) then (false, file)
  else if (get_repos file).contains repo then (false, file)
  else (true, file ++ [repo])

/-- repos.remove(repo): drop the first occurrence. -/
def removeFirst : List String → String → List String
  | [], _ => []
  | x :: xs, r => if x == r then xs else x :: removeFirst xs r

/-- remove_repo: reject when absent from get_repos, otherwise rewrite
repos.txt as the remaining repos, one per line. -/
def remove_repo (file : List String) (repo : String) : Bool × List String :=
  let repos := get_repos file
  if !(repos.contains repo) then (false, file)
  else (true, removeFirst repos repo)

/-- A repos.txt line in the canonical form that the tool itself writes:
equal to its stripped form, nonempty, not a comment line, and free of line
breaks (a string with a line break could not be one line of the file). -/
def canonicalLine (l : String) : Prop :=
  pyStrip l = l ∧ l ≠ "" ∧ startsWithChar l '#' = false ∧ l.data.contains '\n' = false

instance (l : String) : Decidable (canonicalLine l) := by
  unfold canonicalLine
  infer_instance

/-- The Python int builtin applied to a string, as used on the pid file text
and on config values: surrounding whitespace stripped, an optional sign,
then a nonempty run of decimal digits; anything else raises ValueError,
modelled as none. -/
def pyInt (s : String) : Option Int :=
  let t := trimChars s.data
  let neg := t.head? == some '-'
  let core := if neg || (t.head? == some '+') then t.drop 1 else t
  if (!core.isEmpty) && core.all (fun c => '0' ≤ c && c ≤ '9') then
    let n : Nat := core.foldl (fun acc c => acc * 10 + (c.toNat - 48)) 0
    some (if neg then -(n : Int) else (n : Int))
  else none

/-- configure with both a key and a value: the branch of configure that
validates and persists one setting.  none means the command printed an
error and saved nothing. -/
def configure_set (cfg : Config) (key value : String) : Option Config :=
  if key == "check_interval" then
    match pyInt value with
    | none => none
    | some n => some { cfg with check_interval := n }
  else if key == "speech_enabled" then
    some { cfg with speech_enabled := ["true", "1", "yes", "on"].contains (pyLower value) }
  else if key == "notify_success" then
    some { cfg with notify_success := ["true", "1", "yes", "on"].contains (pyLower value) }
  else if key == "notify_failure" then
    some { cfg with notify_failure := ["true", "1", "yes", "on"].contains (pyLower value) }
  else if key == "speech_command" then
    some { cfg with speech_command := if pyLower value == "none" then none else some value }
  else none

/-- The pid-file state and environment that the daemon lifecycle reads:
the marker contents (none when the file is absent), the repos.txt lines,
whether the gh CLI is on the PATH, and the pid the next fork would hand
to the child. -/
structure DaemonFs where
  pidFile : Option String
  repoLines : List String
  ghAvailable : Bool
  nextPid : Int

/-- daemon_running: parse the marker and probe the process with signal 0.
alive p stands for os.kill(p, 0) not raising.  A missing marker reports
stopped; an unparseable marker or a dead process is the stale case, which
deletes the marker and reports stopped.  Returns the report and the marker
state afterwards. -/
def daemon_running (pf : Option String) (alive : Int → Bool) :
    (Bool × Option Int) × Option String :=
  match pf with
  | none => ((false, none), none)
  | some s =>
    match pyInt s with
    | none => ((false, none), none)
    | some p => if alive p then ((true, some p), some s) else ((false, none), none)

/-- show_status reports exactly what daemon_running returns (and reads
nothing else that changes state); the marker state afterwards is the one
daemon_running leaves. -/
def show_status (pf : Option String) (alive : Int → Bool) :
    (Bool × Option Int) × Option String :=
  daemon_running pf alive

/-- The four ways start_daemon can return. -/
inductive StartResult where
  | alreadyRunning (pid : Int)
  | noRepos
  | noGh
  | started (pid : Int)
deriving DecidableEq

/-- start_daemon on a platform with fork: consult daemon_running, refuse
when already running, refuse on an empty watch list or a missing gh CLI,
otherwise fork and let the child write its own pid into the marker.
Returns the outcome and the marker state afterwards. -/
def start_daemon (st : DaemonFs) (alive : Int → Bool) : StartResult × Option String :=
  let dr := daemon_running st.pidFile alive
  match dr.1 with
  | (true, some p) => (.alreadyRunning p, dr.2)
  | _ =>
    if (get_repos st.repoLines).isEmpty then (.noRepos, dr.2)
    else if !st.ghAvailable then (.noGh, dr.2)
    else (.started st.nextPid, some (toString st.nextPid))

/-- A point on the clock, at the resolution Python datetime carries. -/
structure PyDateTime where
  year : Nat
  month : Nat
  day : Nat
  hour : Nat
  minute : Nat
  second : Nat
  micro : Nat
deriving DecidableEq

def padTo (w : Nat) (n : Nat) : String :=
  let s := toString n
  String.mk (List.replicate (w - s.length) '0') ++ s

/-- datetime.isoformat: the text mark_notified stores in notified_at.  The
date and the time are joined by the letter T, and the fractional part is
printed only when the microseconds are nonzero. -/
def isoformat (t : PyDateTime) : String :=
  padTo 4 t.year ++ "-" ++ padTo 2 t.month ++ "-" ++ padTo 2 t.day ++ "T" ++
  padTo 2 t.hour ++ ":" ++ padTo 2 t.minute ++ ":" ++ padTo 2 t.second ++
  (if t.micro == 0 then "" else "." ++ padTo 6 t.micro)

/-- The text the SQLite datetime function renders: date and time joined by
a space, at whole-second resolution. -/
def sqliteDatetime (t : PyDateTime) : String :=
  padTo 4 t.year ++ "-" ++ padTo 2 t.month ++ "-" ++ padTo 2 t.day ++ " " ++
  padTo 2 t.hour ++ ":" ++ padTo 2 t.minute ++ ":" ++ padTo 2 t.second

def isLeap (y : Nat) : Bool :=
  y % 4 == 0 && (y % 100 != 0 || y % 400 == 0)

def daysInMonth (y m : Nat) : Nat :=
  if m == 2 then (if isLeap y then 29 else 28)
  else if m == 4 || m == 6 || m == 9 || m == 11 then 30
  else 31

def prevDay (t : PyDateTime) : PyDateTime :=
  if t.day > 1 then { t with day := t.day - 1 }
  else if t.month > 1 then
    { t with month := t.month - 1, day := daysInMonth t.year (t.month - 1) }
  else { t with year := t.year - 1, month := 12, day := 31 }

/-- Calendar subtraction of whole days with the time of day unchanged,
which is what the -7 days modifier of the SQLite datetime function does
on a UTC clock. -/
def minusDays : Nat → PyDateTime → PyDateTime
  | 0, t => t
  | n + 1, t => minusDays n (prevDay t)

/-- Days of the proleptic Gregorian calendar before the first day of the
given year. -/
def daysBeforeYear (y : Nat) : Nat :=
  365 * (y - 1) + (y - 1) / 4 - (y - 1) / 100 + (y - 1) / 400

def daysBeforeMonth (y m : Nat) : Nat :=
  (List.range (m - 1)).foldl (fun acc i => acc + daysInMonth y (i + 1)) 0

/-- The absolute position of a clock point, in microseconds from the
calendar origin: the yardstick for the phrase strictly older than. -/
def toMicros (t : PyDateTime) : Nat :=
  ((((daysBeforeYear t.year + daysBeforeMonth t.year t.month + (t.day - 1)) * 24
      + t.hour) * 60 + t.minute) * 60 + t.second) * 1000000 + t.micro

def sevenDaysMicros : Nat := 7 * 86400 * 1000000

/-- The order in which SQLite compares two TEXT values under the default
BINARY collation: bytewise on the UTF-8 encodings, which on the ASCII
strings at hand is the lexicographic order on code points. -/
def lexLt : List Char → List Char → Bool
  | [], [] => false
  | [], _ :: _ => true
  | _ :: _, [] => false
  | a :: as, b :: bs =>
    if a.toNat < b.toNat then true
    else if b.toNat < a.toNat then false
    else lexLt as bs

def textLt (a b : String) : Bool := lexLt a.data b.data

/-- The startup purge of init_db: DELETE FROM notified_runs WHERE
notified_at is below the rendered cutoff, under the SQLite TEXT order.
A row survives exactly when its stored text is not below the cutoff
text. -/
def purgeOld (L : List LedgerRow) (now : PyDateTime) : List LedgerRow :=
  let cutoff := sqliteDatetime (minusDays 7 now)
  L.filter (fun e => !(textLt e.notified_at cutoff))

end CiMonitor

namespace CiMonitor

/-- When the fetched run is completed, carries a nonblank id and is not yet
in the ledger, the branch of check_repos fires: the trace is the log
append, the conditional speak invocation, the ledger write and the console
line, in that order, and the ledger gains the row. -/
theorem checkRepo_fires (cfg : Config) (ledger : List LedgerRow) (repo : String)
    (r : RunRecord) (ts : String) (hcomp : r.statusOf = "completed")
    (hid : r.run_id ≠ "") (hnew : was_notified ledger r.run_id = false) :
    checkRepo cfg ledger repo (some r) ts =
      (Event.logAppend repo r.workflowOf r.conclusionOf ::
        (if shouldSpeak cfg r.conclusionOf then
            [Event.speakCall (speakMessage (lastComponent repo) r.workflowOf r.conclusionOf)]
          else []) ++
        [Event.markWrite r.run_id repo r.workflowOf r.conclusionOf,
         Event.consoleLine repo r.workflowOf r.conclusionOf],
       mark_notified ledger r.run_id repo r.workflowOf r.conclusionOf ts) := by
  simp [checkRepo, hcomp, hnew, beq_eq_false_iff_ne.mpr hid]

/-- A ledger write makes the written run id visible to was_notified. -/
theorem was_notified_mark (L : List LedgerRow) (id repo wf c ts : String) :
    was_notified (mark_notified L id repo wf c ts) id = true := by
  simp [was_notified, mark_notified]

/-- The should_speak condition, as a proposition on the conclusion and the
two gating flags. -/
theorem shouldSpeak_eq_true_iff (cfg : Config) (c : String) :
    shouldSpeak cfg c = true ↔
      ((c = "success" ∧ cfg.notify_success = true) ∨
       (c = "failure" ∧ cfg.notify_failure = true) ∨
       (c ≠ "success" ∧ c ≠ "failure")) := by
  by_cases h1 : c = "success" <;> by_cases h2 : c = "failure" <;>
    simp [shouldSpeak, h1, h2]

/-- C1: for every poll cycle and watched repository, when the Run Source
returns a completed run whose run id is already present in the ledger, the
per-repository body performs no speak invocation, no history-log append
and no ledger write: the trace is empty and the ledger is unchanged. -/
theorem c1_recorded_run_triggers_nothing (cfg : Config) (ledger : List LedgerRow)
    (repo : String) (r : RunRecord) (ts : String)
    (hcomp : r.statusOf = "completed")
    (hseen : was_notified ledger r.run_id = true) :
    checkRepo cfg ledger repo (some r) ts = ([], ledger) := by
  simp [checkRepo, hseen]

/-- Witness: c1 applied to a concrete completed run whose id 42 is already
in the ledger. -/
theorem c1_recorded_run_triggers_nothing_witness :
    checkRepo DEFAULT_CONFIG [⟨"42", "acme/widgets", "CI", "success", "2024-01-01T00:00:00"⟩]
      "acme/widgets" (some ⟨some "42", some "completed", some "success", some "CI"⟩)
      "2024-01-02T00:00:00" =
      ([], [⟨"42", "acme/widgets", "CI", "success", "2024-01-01T00:00:00"⟩]) :=
  c1_recorded_run_triggers_nothing DEFAULT_CONFIG
    [⟨"42", "acme/widgets", "CI", "success", "2024-01-01T00:00:00"⟩]
    "acme/widgets" ⟨some "42", some "completed", some "success", some "CI"⟩
    "2024-01-02T00:00:00" (by decide) (by decide)

/-- C10: a run record whose id field is missing or empty produces no side
effect at all for its repository, even when its status is completed: the
trace is empty and the ledger is unchanged. -/
theorem c10_blank_id_no_effects (cfg : Config) (ledger : List LedgerRow)
    (repo : String) (r : RunRecord) (ts : String)
    (hid : r.run_id = "") :
    checkRepo cfg ledger repo (some r) ts = ([], ledger) := by
  simp [checkRepo, hid]

/-- Witness: c10 applied to a concrete completed successful run whose
databaseId field is absent. -/
theorem c10_blank_id_no_effects_witness :
    checkRepo DEFAULT_CONFIG [] "acme/widgets"
      (some ⟨none, some "completed", some "success", some "CI"⟩) "2024-01-02T00:00:00" =
      ([], []) :=
  c10_blank_id_no_effects DEFAULT_CONFIG [] "acme/widgets"
    ⟨none, some "completed", some "success", some "CI"⟩ "2024-01-02T00:00:00" (by decide)

/-- C2 counterexample: the claim quantifies over every completed run whose
run id is not in the ledger and asserts exactly one history-log append and
one ledger insertion, but a completed run whose databaseId is absent has
the run id of the empty string, which is not in the empty ledger, and the
cycle performs zero appends, zero ledger writes and zero speak calls. -/
theorem c2_blank_id_zero_appends :
    (RunRecord.statusOf ⟨none, some "completed", some "success", some "CI"⟩ = "completed") ∧
    was_notified [] (RunRecord.run_id ⟨none, some "completed", some "success", some "CI"⟩)
      = false ∧
    countLog (checkRepo DEFAULT_CONFIG [] "acme/widgets"
      (some ⟨none, some "completed", some "success", some "CI"⟩) "t").1 = 0 ∧
    countMark (checkRepo DEFAULT_CONFIG [] "acme/widgets"
      (some ⟨none, some "completed", some "success", some "CI"⟩) "t").1 = 0 ∧
    countSpeak (checkRepo DEFAULT_CONFIG [] "acme/widgets"
      (some ⟨none, some "completed", some "success", some "CI"⟩) "t").1 = 0 := by
  decide

/-- C2 (amended with a nonblank run id): for a completed run whose run id
is nonblank and not yet in the ledger, the per-repository body performs
exactly one history-log append (even when speech is gated off), exactly
one ledger write of exactly that run id, and at most one speak invocation,
which happens exactly when the conclusion is success and notify_success is
set, or failure and notify_failure is set, or any other value. -/
theorem c2_fresh_completed_run_effects (cfg : Config) (ledger : List LedgerRow)
    (repo : String) (r : RunRecord) (ts : String)
    (hcomp : r.statusOf = "completed") (hid : r.run_id ≠ "")
    (hnew : was_notified ledger r.run_id = false) :
    countLog (checkRepo cfg ledger repo (some r) ts).1 = 1 ∧
    countMark (checkRepo cfg ledger repo (some r) ts).1 = 1 ∧
    countSpeak (checkRepo cfg ledger repo (some r) ts).1 ≤ 1 ∧
    (countSpeak (checkRepo cfg ledger repo (some r) ts).1 = 1 ↔
      ((r.conclusionOf = "success" ∧ cfg.notify_success = true) ∨
       (r.conclusionOf = "failure" ∧ cfg.notify_failure = true) ∨
       (r.conclusionOf ≠ "success" ∧ r.conclusionOf ≠ "failure"))) ∧
    (checkRepo cfg ledger repo (some r) ts).2 =
      mark_notified ledger r.run_id repo r.workflowOf r.conclusionOf ts ∧
    was_notified (checkRepo cfg ledger repo (some r) ts).2 r.run_id = true := by
  rw [checkRepo_fires cfg ledger repo r ts hcomp hid hnew]
  rw [← shouldSpeak_eq_true_iff]
  by_cases hss : shouldSpeak cfg r.conclusionOf = true <;>
    simp [hss, countLog, countMark, countSpeak, isLog, isMark, isSpeak, was_notified_mark]

/-- Witness: c2 applied to a concrete fresh completed successful run with
default config; the trace holds one log append, one speak call and one
ledger write. -/
theorem c2_fresh_completed_run_effects_witness :
    countLog (checkRepo DEFAULT_CONFIG [] "acme/widgets"
      (some ⟨some "42", some "completed", some "success", some "CI"⟩) "t").1 = 1 ∧
    countMark (checkRepo DEFAULT_CONFIG [] "acme/widgets"
      (some ⟨some "42", some "completed", some "success", some "CI"⟩) "t").1 = 1 ∧
    countSpeak (checkRepo DEFAULT_CONFIG [] "acme/widgets"
      (some ⟨some "42", some "completed", some "success", some "CI"⟩) "t").1 ≤ 1 ∧
    (countSpeak (checkRepo DEFAULT_CONFIG [] "acme/widgets"
      (some ⟨some "42", some "completed", some "success", some "CI"⟩) "t").1 = 1 ↔
      (("success" = "success" ∧ DEFAULT_CONFIG.notify_success = true) ∨
       ("success" = "failure" ∧ DEFAULT_CONFIG.notify_failure = true) ∨
       (("success" : String) ≠ "success" ∧ ("success" : String) ≠ "failure"))) ∧
    (checkRepo DEFAULT_CONFIG [] "acme/widgets"
      (some ⟨some "42", some "completed", some "success", some "CI"⟩) "t").2 =
      mark_notified [] "42" "acme/widgets" "CI" "success" "t" ∧
    was_notified (checkRepo DEFAULT_CONFIG [] "acme/widgets"
      (some ⟨some "42", some "completed", some "success", some "CI"⟩) "t").2 "42" = true :=
  c2_fresh_completed_run_effects DEFAULT_CONFIG [] "acme/widgets"
    ⟨some "42", some "completed", some "success", some "CI"⟩ "t"
    (by decide) (by decide) (by decide)

end CiMonitor

namespace CiMonitor

/-- Replaying a trace that holds no ledger-write event leaves the ledger
unchanged. -/
theorem applyMarks_of_no_marks (L : List LedgerRow) (ts : String) :
    ∀ evs : List Event, (∀ e ∈ evs, isMark e = false) → applyMarks L evs ts = L := by
  intro evs
  induction evs generalizing L with
  | nil => intro _; rfl
  | cons e t ih =>
    intro h
    have he : isMark e = false := h e (List.mem_cons_self e t)
    have ht : ∀ x ∈ t, isMark x = false := fun x hx => h x (List.mem_cons_of_mem e hx)
    cases e with
    | markWrite a b c d => simp [isMark] at he
    | logAppend a b c => simpa [applyMarks] using ih L ht
    | speakCall m => simpa [applyMarks] using ih L ht
    | consoleLine a b c => simpa [applyMarks] using ih L ht

/-- C3: for every run the cycle newly announces, the ledger write is the
last of the three side-effect steps: the trace splits around the single
markWrite event, the history-log append and every speak invocation lie
strictly before it, nothing after it is a log append or a speak call, and
replaying only the events before the ledger write leaves the ledger
unchanged, so a cycle interrupted before the write re-runs identically on
the next poll. -/
theorem c3_ledger_write_is_last (cfg : Config) (ledger : List LedgerRow)
    (repo : String) (r : RunRecord) (ts : String)
    (hcomp : r.statusOf = "completed") (hid : r.run_id ≠ "")
    (hnew : was_notified ledger r.run_id = false) :
    ∃ pre post,
      (checkRepo cfg ledger repo (some r) ts).1 =
        pre ++ Event.markWrite r.run_id repo r.workflowOf r.conclusionOf :: post ∧
      Event.logAppend repo r.workflowOf r.conclusionOf ∈ pre ∧
      (∀ m, Event.speakCall m ∈ (checkRepo cfg ledger repo (some r) ts).1 →
        Event.speakCall m ∈ pre) ∧
      (∀ e ∈ pre, isMark e = false) ∧
      (∀ e ∈ post, isLog e = false ∧ isSpeak e = false) ∧
      applyMarks ledger pre ts = ledger ∧
      checkRepo cfg (applyMarks ledger pre ts) repo (some r) ts =
        checkRepo cfg ledger repo (some r) ts := by
  rw [checkRepo_fires cfg ledger repo r ts hcomp hid hnew]
  have hpremark : ∀ e ∈ (Event.logAppend repo r.workflowOf r.conclusionOf ::
      (if shouldSpeak cfg r.conclusionOf then
          [Event.speakCall (speakMessage (lastComponent repo) r.workflowOf r.conclusionOf)]
        else [])), isMark e = false := by
    intro e he
    rcases List.mem_cons.mp he with rfl | h
    · rfl
    · by_cases hss : shouldSpeak cfg r.conclusionOf = true
      · rw [if_pos hss, List.mem_singleton] at h
        subst h
        rfl
      · rw [if_neg hss] at h
        exact absurd h (List.not_mem_nil e)
  refine ⟨Event.logAppend repo r.workflowOf r.conclusionOf ::
    (if shouldSpeak cfg r.conclusionOf then
        [Event.speakCall (speakMessage (lastComponent repo) r.workflowOf r.conclusionOf)]
      else []),
    [Event.consoleLine repo r.workflowOf r.conclusionOf], ?_, ?_, ?_, hpremark, ?_, ?_, ?_⟩
  · by_cases hss : shouldSpeak cfg r.conclusionOf = true <;> simp [hss]
  · exact List.mem_cons_self _ _
  · intro m hm
    by_cases hss : shouldSpeak cfg r.conclusionOf = true <;>
      simp_all [hss]
  · intro e he
    simp only [List.mem_singleton] at he
    subst he
    exact ⟨rfl, rfl⟩
  · exact applyMarks_of_no_marks ledger ts _ hpremark
  · rw [applyMarks_of_no_marks ledger ts _ hpremark]
    exact checkRepo_fires cfg ledger repo r ts hcomp hid hnew

/-- Witness: c3 applied to a concrete fresh completed failed run with
default config. -/
theorem c3_ledger_write_is_last_witness :
    ∃ pre post,
      (checkRepo DEFAULT_CONFIG [] "acme/widgets"
        (some ⟨some "42", some "completed", some "failure", some "CI"⟩) "t").1 =
        pre ++ Event.markWrite "42" "acme/widgets" "CI" "failure" :: post ∧
      Event.logAppend "acme/widgets" "CI" "failure" ∈ pre ∧
      (∀ m, Event.speakCall m ∈ (checkRepo DEFAULT_CONFIG [] "acme/widgets"
        (some ⟨some "42", some "completed", some "failure", some "CI"⟩) "t").1 →
        Event.speakCall m ∈ pre) ∧
      (∀ e ∈ pre, isMark e = false) ∧
      (∀ e ∈ post, isLog e = false ∧ isSpeak e = false) ∧
      applyMarks [] pre "t" = [] ∧
      checkRepo DEFAULT_CONFIG (applyMarks [] pre "t") "acme/widgets"
        (some ⟨some "42", some "completed", some "failure", some "CI"⟩) "t" =
        checkRepo DEFAULT_CONFIG [] "acme/widgets"
          (some ⟨some "42", some "completed", some "failure", some "CI"⟩) "t" :=
  c3_ledger_write_is_last DEFAULT_CONFIG [] "acme/widgets"
    ⟨some "42", some "completed", some "failure", some "CI"⟩ "t"
    (by decide) (by decide) (by decide)

end CiMonitor

namespace CiMonitor

/-- Unfolding one replayed mark_notified call. -/
theorem applyRecords_cons (L : List LedgerRow) (c : RecordCall) (cs : List RecordCall) :
    applyRecords L (c :: cs) =
      applyRecords (mark_notified L c.run_id c.repo c.workflow c.conclusion c.notified_at) cs :=
  rfl

/-- Splitting a replay at an append. -/
theorem applyRecords_append (L : List LedgerRow) (a b : List RecordCall) :
    applyRecords L (a ++ b) = applyRecords (applyRecords L a) b := by
  simp [applyRecords, List.foldl_append]

/-- Filtering out rows of a different run id does not change whether some
row carries this one. -/
theorem any_filter_other (L : List LedgerRow) {id id2 : String} (h : id2 ≠ id) :
    (L.filter (fun e => !(e.run_id == id2))).any (fun e => e.run_id == id) =
      L.any (fun e => e.run_id == id) := by
  induction L with
  | nil => rfl
  | cons a t ih =>
    by_cases ha : a.run_id = id2
    · have haid : (a.run_id == id) = false := beq_eq_false_iff_ne.mpr (by rw [ha]; exact h)
      have hdrop : (!(a.run_id == id2)) = false := by rw [ha]; simp
      simp [List.filter_cons, hdrop, haid, ih]
    · have hkeep : (!(a.run_id == id2)) = true := by
        simp [beq_eq_false_iff_ne.mpr ha]
      simp [List.filter_cons, hkeep, ih]

/-- A write under a different run id does not change what was_notified sees
for this one. -/
theorem was_notified_mark_other (L : List LedgerRow) {id id2 : String} (h : id2 ≠ id)
    (repo wf c ts : String) :
    was_notified (mark_notified L id2 repo wf c ts) id = was_notified L id := by
  simp only [was_notified, mark_notified, List.any_append, List.any_cons, List.any_nil]
  rw [any_filter_other L h]
  simp [beq_eq_false_iff_ne.mpr h]

/-- Replaying writes that all carry other run ids does not change what
was_notified sees for this one. -/
theorem was_notified_applyRecords_ne (id : String) (cs : List RecordCall)
    (h : ∀ c ∈ cs, c.run_id ≠ id) (L : List LedgerRow) :
    was_notified (applyRecords L cs) id = was_notified L id := by
  induction cs generalizing L with
  | nil => rfl
  | cons c t ih =>
    rw [applyRecords_cons,
      ih (fun d hd => h d (List.mem_cons_of_mem c hd)),
      was_notified_mark_other L (h c (List.mem_cons_self c t))]

/-- Once a run id is visible, any further writes keep it visible. -/
theorem was_notified_applyRecords_keeps (id : String) (cs : List RecordCall)
    (L : List LedgerRow) (h : was_notified L id = true) :
    was_notified (applyRecords L cs) id = true := by
  induction cs generalizing L with
  | nil => exact h
  | cons c t ih =>
    rw [applyRecords_cons]
    apply ih
    by_cases hc : c.run_id = id
    · rw [hc]
      exact was_notified_mark L id c.repo c.workflow c.conclusion c.notified_at
    · rw [was_notified_mark_other L hc]
      exact h

/-- Rows with the given run id never survive the replace-filter. -/
theorem filter_after_filter_ne (L : List LedgerRow) (id : String) :
    (L.filter (fun e => !(e.run_id == id))).filter (fun e => e.run_id == id) = [] := by
  induction L with
  | nil => rfl
  | cons a t ih => by_cases ha : a.run_id = id <;> simp [List.filter_cons, ha, ih]

/-- After a write, the ledger holds exactly one row for that run id. -/
theorem countId_mark_self (L : List LedgerRow) (id repo wf c ts : String) :
    countId (mark_notified L id repo wf c ts) id = 1 := by
  simp [countId, mark_notified, List.filter_append, filter_after_filter_ne]

/-- Replaying same-id writes keeps the row count for that id at one. -/
theorem countId_applyRecords_same (id : String) (cs : List RecordCall)
    (h : ∀ c ∈ cs, c.run_id = id) (L : List LedgerRow) (hL : countId L id = 1) :
    countId (applyRecords L cs) id = 1 := by
  induction cs generalizing L with
  | nil => exact hL
  | cons c t ih =>
    rw [applyRecords_cons]
    apply ih (fun d hd => h d (List.mem_cons_of_mem c hd))
    rw [h c (List.mem_cons_self c t)]
    exact countId_mark_self L id c.repo c.workflow c.conclusion c.notified_at

/-- C4: on any ledger history built from record calls, has of an id is
false before any record call with that id, true right after one, stays
true under any number of repeated record calls with the same id, and those
repeats leave at most one row for the id. -/
theorem c4_ledger_record_idempotent (id : String) (earlier : List RecordCall)
    (c0 : RecordCall) (later : List RecordCall)
    (hearlier : ∀ c ∈ earlier, c.run_id ≠ id) (hc0 : c0.run_id = id)
    (hlater : ∀ c ∈ later, c.run_id = id) :
    was_notified (applyRecords [] earlier) id = false ∧
    was_notified (applyRecords [] (earlier ++ [c0])) id = true ∧
    was_notified (applyRecords [] (earlier ++ c0 :: later)) id = true ∧
    countId (applyRecords [] (earlier ++ c0 :: later)) id ≤ 1 := by
  have hbase : was_notified (applyRecords [] (earlier ++ [c0])) id = true := by
    rw [applyRecords_append, applyRecords_cons, hc0]
    apply was_notified_applyRecords_keeps
    exact was_notified_mark _ id c0.repo c0.workflow c0.conclusion c0.notified_at
  have hsplit : earlier ++ c0 :: later = (earlier ++ [c0]) ++ later := by
    simp
  refine ⟨?_, hbase, ?_, ?_⟩
  · rw [was_notified_applyRecords_ne id earlier hearlier]
    rfl
  · rw [hsplit, applyRecords_append]
    exact was_notified_applyRecords_keeps id later _ hbase
  · rw [hsplit, applyRecords_append]
    have h1 : countId (applyRecords [] (earlier ++ [c0])) id = 1 := by
      rw [applyRecords_append, applyRecords_cons, hc0]
      exact countId_mark_self _ id c0.repo c0.workflow c0.conclusion c0.notified_at
    rw [countId_applyRecords_same id later hlater _ h1]

/-- Witness: c4 applied to a concrete history: one unrelated record, then
the record of id 42, then one repeat of id 42. -/
theorem c4_ledger_record_idempotent_witness :
    was_notified (applyRecords [] [⟨"7", "o/r", "CI", "success", "t0"⟩]) "42" = false ∧
    was_notified (applyRecords []
      ([⟨"7", "o/r", "CI", "success", "t0"⟩] ++ [⟨"42", "o/r", "CI", "failure", "t1"⟩]))
      "42" = true ∧
    was_notified (applyRecords []
      ([⟨"7", "o/r", "CI", "success", "t0"⟩] ++ ⟨"42", "o/r", "CI", "failure", "t1"⟩ ::
        [⟨"42", "o/r", "CI", "failure", "t2"⟩])) "42" = true ∧
    countId (applyRecords []
      ([⟨"7", "o/r", "CI", "success", "t0"⟩] ++ ⟨"42", "o/r", "CI", "failure", "t1"⟩ ::
        [⟨"42", "o/r", "CI", "failure", "t2"⟩])) "42" ≤ 1 :=
  c4_ledger_record_idempotent "42" [⟨"7", "o/r", "CI", "success", "t0"⟩]
    ⟨"42", "o/r", "CI", "failure", "t1"⟩ [⟨"42", "o/r", "CI", "failure", "t2"⟩]
    (by decide) (by decide) (by decide)

end CiMonitor

namespace CiMonitor

/-- A file of canonical lines is its own watch set. -/
theorem get_repos_eq_self {file : List String} (h : ∀ l ∈ file, canonicalLine l) :
    get_repos file = file := by
  induction file with
  | nil => rfl
  | cons a t ih =>
    obtain ⟨ha1, ha2, ha3, _⟩ := h a (List.mem_cons_self a t)
    have hcond : ((!(pyStrip a == "")) && (!(startsWithChar a '#'))) = true := by
      rw [ha1, ha3]
      simp [beq_eq_false_iff_ne.mpr ha2]
    have ht := ih (fun l hl => h l (List.mem_cons_of_mem a hl))
    simp only [get_repos, List.filter_cons, hcond, if_true, List.map_cons]
    rw [ha1]
    simp only [get_repos] at ht
    rw [ht]

/-- Dropping the first occurrence of an element appended to a list that
does not hold it restores the list. -/
theorem removeFirst_append (l : List String) (r : String) (h : r ∉ l) :
    removeFirst (l ++ [r]) r = l := by
  induction l with
  | nil => simp [removeFirst]
  | cons a t ih =>
    have ha : a ≠ r := fun hh => h (by rw [hh]; exact List.mem_cons_self r t)
    simp [removeFirst, beq_eq_false_iff_ne.mpr ha,
      ih (fun hm => h (List.mem_cons_of_mem a hm))]

/-- C6 counterexample: the claim quantifies over every watch set and every
well-formed identifier, but when the identifier is already being watched,
add is rejected without changing the file while remove still deletes the
entry, so the watch set after add-then-remove differs from the one
before. -/
theorem c6_present_repo_not_restored :
    "acme/widgets".data.count '/' = 1 ∧
    get_repos ((remove_repo (add_repo ["acme/widgets"] "acme/widgets").2 "acme/widgets").2) ≠
      get_repos ["acme/widgets"] := by
  decide

/-- C6 (amended to identifiers not already watched): for a watch-list file
in the canonical form the tool writes, and a well-formed identifier with
exactly one separator, itself canonical as a line and not already in the
watch set, add followed by remove leaves the watch set equal to its state
before both calls. -/
theorem c6_add_remove_restores (file : List String) (r : String)
    (hfile : ∀ l ∈ file, canonicalLine l) (hr : canonicalLine r)
    (hslash : r.data.count '/' = 1) (hnew : r ∉ get_repos file) :
    get_repos (remove_repo (add_repo file r).2 r).2 = get_repos file := by
  obtain ⟨hr1, hr2, hr3, hr4⟩ := hr
  have hself : get_repos file = file := get_repos_eq_self hfile
  have hmem : '/' ∈ r.data := by
    have h0 : 0 < r.data.count '/' := by omega
    exact List.count_pos_iff.mp h0
  have hadd : add_repo file r = (true, file ++ [r]) := by
    simp [add_repo, hmem, hslash, hnew]
  have hfile2 : ∀ l ∈ file ++ [r], canonicalLine l := by
    intro l hl
    rcases List.mem_append.mp hl with h | h
    · exact hfile l h
    · rw [List.mem_singleton] at h
      subst h
      exact ⟨hr1, hr2, hr3, hr4⟩
  have hreps : get_repos (file ++ [r]) = file ++ [r] := get_repos_eq_self hfile2
  have hrnotfile : r ∉ file := by
    rw [hself] at hnew
    exact hnew
  have hmem2 : r ∈ file ++ [r] :=
    List.mem_append_right file (List.mem_singleton.mpr rfl)
  have hrem : remove_repo (file ++ [r]) r = (true, file) := by
    simp [remove_repo, hreps, hmem2, removeFirst_append file r hrnotfile]
  rw [hadd, hrem]

/-- Witness: c6 applied to the concrete watch set of one other repository
and a fresh identifier. -/
theorem c6_add_remove_restores_witness :
    get_repos (remove_repo (add_repo ["owner/alpha"] "acme/widgets").2 "acme/widgets").2 =
      get_repos ["owner/alpha"] :=
  c6_add_remove_restores ["owner/alpha"] "acme/widgets"
    (by decide) (by decide) (by decide) (by decide)

/-- C7: an identifier with zero separator characters, or with more than
one, is rejected by add and both the file and the watch set are unchanged
afterward. -/
theorem c7_invalid_identifier_rejected (file : List String) (r : String)
    (h : r.data.count '/' = 0 ∨ 1 < r.data.count '/') :
    add_repo file r = (false, file) ∧
    get_repos (add_repo file r).2 = get_repos file := by
  have hrej : add_repo file r = (false, file) := by
    rcases h with h | h
    · have hmem : '/' ∉ r.data := by
        intro hin
        have := List.count_pos_iff.mpr hin
        omega
      simp [add_repo, hmem]
    · have hne : ¬ r.data.count '/' = 1 := by omega
      simp [add_repo, hne]
  exact ⟨hrej, by rw [hrej]⟩

/-- Witness: c7 applied to an identifier with no separator and to one with
two, on a concrete watch set. -/
theorem c7_invalid_identifier_rejected_witness :
    (add_repo ["owner/alpha"] "widgets" = (false, ["owner/alpha"]) ∧
      get_repos (add_repo ["owner/alpha"] "widgets").2 = get_repos ["owner/alpha"]) ∧
    (add_repo ["owner/alpha"] "a/b/c" = (false, ["owner/alpha"]) ∧
      get_repos (add_repo ["owner/alpha"] "a/b/c").2 = get_repos ["owner/alpha"]) :=
  ⟨c7_invalid_identifier_rejected ["owner/alpha"] "widgets" (Or.inl (by decide)),
   c7_invalid_identifier_rejected ["owner/alpha"] "a/b/c" (Or.inr (by decide))⟩

end CiMonitor

namespace CiMonitor

/-- C8 counterexample: the claim asserts that after start on a stale marker
the marker file no longer exists, but when the preconditions hold (a
watched repository and the gh CLI available) start forks and the child
writes a fresh marker, so a marker file exists again afterward. -/
theorem c8_start_writes_fresh_marker :
    daemon_running (some "999") (fun _ => false) = ((false, none), none) ∧
    start_daemon ⟨some "999", ["acme/widgets"], true, 5⟩ (fun _ => false) =
      (StartResult.started 5, some "5") ∧
    (start_daemon ⟨some "999", ["acme/widgets"], true, 5⟩ (fun _ => false)).2 ≠ none := by
  decide

/-- C8 (amended): when the marker names a process that is not alive, status
reports the daemon as not running and deletes the marker, and start treats
the daemon as not running (it never reports already-running); after start
the stale marker is gone — the marker is either absent or holds the pid of
the newly started daemon. -/
theorem c8_stale_marker_self_healed (st : DaemonFs) (alive : Int → Bool)
    (s : String) (p : Int)
    (hpf : st.pidFile = some s) (hp : pyInt s = some p) (hdead : alive p = false) :
    (show_status st.pidFile alive).1.1 = false ∧
    (show_status st.pidFile alive).2 = none ∧
    (∀ q, (start_daemon st alive).1 ≠ StartResult.alreadyRunning q) ∧
    ((start_daemon st alive).2 = none ∨
      (start_daemon st alive).2 = some (toString st.nextPid)) := by
  have hdr : daemon_running st.pidFile alive = ((false, none), none) := by
    rw [hpf]
    simp [daemon_running, hp, hdead]
  refine ⟨?_, ?_, ?_, ?_⟩
  · rw [show_status, hdr]
  · rw [show_status, hdr]
  · intro q
    rw [start_daemon, hdr]
    by_cases h1 : (get_repos st.repoLines).isEmpty = true <;>
      by_cases h2 : st.ghAvailable = true <;>
      simp [h1, h2]
  · rw [start_daemon, hdr]
    by_cases h1 : (get_repos st.repoLines).isEmpty = true <;>
      by_cases h2 : st.ghAvailable = true <;>
      simp [h1, h2]

/-- Witness: c8 applied to a concrete stale state (marker 999, no live
process, one watched repository, gh available, next pid 5). -/
theorem c8_stale_marker_self_healed_witness :
    (show_status (DaemonFs.pidFile ⟨some "999", ["acme/widgets"], true, 5⟩)
      (fun _ => false)).1.1 = false ∧
    (show_status (DaemonFs.pidFile ⟨some "999", ["acme/widgets"], true, 5⟩)
      (fun _ => false)).2 = none ∧
    (∀ q, (start_daemon ⟨some "999", ["acme/widgets"], true, 5⟩ (fun _ => false)).1 ≠
      StartResult.alreadyRunning q) ∧
    ((start_daemon ⟨some "999", ["acme/widgets"], true, 5⟩ (fun _ => false)).2 = none ∨
      (start_daemon ⟨some "999", ["acme/widgets"], true, 5⟩ (fun _ => false)).2 =
        some (toString (DaemonFs.nextPid ⟨some "999", ["acme/widgets"], true, 5⟩))) :=
  c8_stale_marker_self_healed ⟨some "999", ["acme/widgets"], true, 5⟩ (fun _ => false)
    "999" 999 rfl (by decide) rfl

/-- C9 counterexample: the claim asserts that every value the config
command accepts for check_interval is a positive integer, but the command
accepts the string -5, persists the interval -5, and -5 is not positive. -/
theorem c9_interval_accepts_negative :
    configure_set DEFAULT_CONFIG "check_interval" "-5" =
      some ⟨-5, true, none, true, true⟩ ∧
    ¬ (0 < (-5 : Int)) := by
  decide

/-- C9 (amended): the config command validates check_interval only as an
integer: a value that parses as an integer — of any sign — is accepted and
persisted verbatim, a value that does not parse is rejected and nothing is
saved, and the interval the daemon loop sleeps on is exactly the persisted
integer, positive or not. -/
theorem c9_interval_integer_only (cfg : Config) (v : String) :
    (∀ n : Int, pyInt v = some n →
      configure_set cfg "check_interval" v = some { cfg with check_interval := n } ∧
      get_check_interval { cfg with check_interval := n } = n) ∧
    (pyInt v = none → configure_set cfg "check_interval" v = none) := by
  constructor
  · intro n hn
    constructor
    · simp [configure_set, hn]
    · rfl
  · intro hn
    simp [configure_set, hn]

/-- Witness: c9 applied to the default config and the string -5, which
parses to the negative interval -5 and is persisted. -/
theorem c9_interval_integer_only_witness :
    configure_set DEFAULT_CONFIG "check_interval" "-5" =
      some { DEFAULT_CONFIG with check_interval := -5 } ∧
    get_check_interval { DEFAULT_CONFIG with check_interval := (-5 : Int) } = -5 :=
  (c9_interval_integer_only DEFAULT_CONFIG "-5").1 (-5) (by decide)

/-- C5: the claim states that after the startup purge every entry strictly
older than seven days is gone, and that is the evident intent of the purge
comment and its strict comparison; but mark_notified stores the Python
isoformat text, whose date and time are joined by the letter T, while the
purge compares against the SQLite datetime text, whose separator is a
space.  The letter T sorts above the space, so a stored entry on the same
calendar date as the cutoff always compares above it: at the failing input
below the entry is seven days and seven hours old, strictly outside the
window, yet the purge retains it.  The last two conjuncts isolate the
cause: under the SQLite rendering the same timestamp would sort below the
cutoff and be deleted, while the stored isoformat rendering does not. -/
theorem c5_purge_retains_strictly_older_entry :
    toMicros ⟨2024, 1, 1, 5, 0, 0, 0⟩ + sevenDaysMicros <
      toMicros ⟨2024, 1, 8, 12, 0, 0, 0⟩ ∧
    purgeOld [⟨"42", "acme/widgets", "CI", "success", isoformat ⟨2024, 1, 1, 5, 0, 0, 0⟩⟩]
      ⟨2024, 1, 8, 12, 0, 0, 0⟩ =
      [⟨"42", "acme/widgets", "CI", "success", isoformat ⟨2024, 1, 1, 5, 0, 0, 0⟩⟩] ∧
    textLt (sqliteDatetime ⟨2024, 1, 1, 5, 0, 0, 0⟩)
      (sqliteDatetime (minusDays 7 ⟨2024, 1, 8, 12, 0, 0, 0⟩)) = true ∧
    textLt (isoformat ⟨2024, 1, 1, 5, 0, 0, 0⟩)
      (sqliteDatetime (minusDays 7 ⟨2024, 1, 8, 12, 0, 0, 0⟩)) = false := by
  decide

end CiMonitor
